import Mathlib

/-!
# indicator-sensors: the libsensors plugin

A shallow embedding of `plugins/libsensors/is-libsensors-plugin.c`:
chip and feature enumeration (`process_sensors_chip_name`,
`is_libsensors_plugin_activate`), the identifier registry
(`sensor_chip_names`) and the read path (`update_sensor_value`).

C strings are lists of characters, machine integers are `Int` with explicit
wrap-around, and a `gdouble` is carried as a rational: the plugin never
computes with or compares the values it reads, it only stores and forwards them.
-/

namespace IsLibsensors

/-! ## Strings and numbers -/

/-- A NUL-terminated `gchar *` string, as the list of its characters. -/
abbrev CStr := List Char

/-- A `gdouble`; the plugin only stores and forwards these. -/
abbrev gdouble := Rat

/-- A decimal digit character. -/
def IsDig (c : Char) : Prop := '0' ≤ c ∧ c ≤ '9'

instance (c : Char) : Decidable (IsDig c) := by unfold IsDig; infer_instance

/-- The character of one decimal digit. -/
def digitChar (d : Nat) : Char :=
  match d with
  | 0 => '0' | 1 => '1' | 2 => '2' | 3 => '3' | 4 => '4'
  | 5 => '5' | 6 => '6' | 7 => '7' | 8 => '8' | _ => '9'

/-- Decimal digits of `n`, most significant first, pushed in front of `acc`;
`fuel` bounds the number of digits produced. -/
def digitsCore : Nat → Nat → CStr → CStr
  | 0, _, acc => acc
  | fuel + 1, n, acc =>
    if n / 10 = 0 then digitChar (n % 10) :: acc
    else digitsCore fuel (n / 10) (digitChar (n % 10) :: acc)

/-- Decimal representation of a natural number (`0` prints as "0"). -/
def decimalNat (n : Nat) : CStr := digitsCore (n + 1) n []

/-- What the `%d` conversion of `printf` prints for an `int`. -/
def printf_d (i : Int) : CStr :=
  if i < 0 then '-' :: decimalNat i.natAbs else decimalNat i.natAbs

/-- The call `g_strdup_printf("%s/%d", chip_name_string, number)` of
`process_sensors_chip_name` (lines 280-281). -/
def g_strdup_printf (chip_name_string : CStr) (number : Int) : CStr :=
  chip_name_string ++ '/' :: printf_d number

/-- The call `g_strrstr(id, "/")` followed by `offset + 1`: the text after the
last '/' of `id`, or `none` when `g_strrstr` returns NULL. -/
def g_strrstr : CStr → Option CStr
  | [] => none
  | c :: cs =>
    match g_strrstr cs with
    | some r => some r
    | none => if c = '/' then some cs else none

/-- The `ISSPACE` test of GLib in the C locale. -/
def ISSPACE (c : Char) : Bool :=
  c = ' ' || c = Char.ofNat 9 || c = Char.ofNat 10 || c = Char.ofNat 11 || c = Char.ofNat 12 ||
    c = Char.ofNat 13

/-- Skips leading white space, as `g_ascii_strtoll` does first. -/
def skipSpace : CStr → CStr
  | [] => []
  | c :: cs => if ISSPACE c then skipSpace cs else c :: cs

/-- `G_MAXUINT64`. -/
def G_MAXUINT64 : Nat := 18446744073709551615

/-- `G_MAXINT64`. -/
def G_MAXINT64 : Nat := 9223372036854775807

/-- The digit loop of `g_parse_long_long` for base 10: accumulates digits into
an unsigned 64-bit value, records overflow instead of wrapping, and stops at
the first character that is not a decimal digit. Returns the value, the
overflow flag and the unread rest. -/
def parseLoop : Nat → Bool → CStr → Nat × Bool × CStr
  | ui64, overflow, [] => (ui64, overflow, [])
  | ui64, overflow, c :: cs =>
    if '0' ≤ c ∧ c ≤ '9' then
      let d := c.toNat - 48
      if ui64 > G_MAXUINT64 / 10 ∨ (ui64 = G_MAXUINT64 / 10 ∧ d > G_MAXUINT64 % 10) then
        parseLoop ui64 true cs
      else parseLoop (ui64 * 10 + d) overflow cs
    else (ui64, overflow, c :: cs)

/-- GLib's `g_parse_long_long(nptr, &end, 10, &negative)`, the worker of
`g_ascii_strtoll`: optional white space, optional sign, decimal digits.
Returns the unsigned magnitude (`G_MAXUINT64` on overflow), the sign flag and
the `end` pointer as the unread rest (`nptr` itself when no digit was read). -/
def g_parse_long_long (nptr : CStr) : Nat × Bool × CStr :=
  match skipSpace nptr with
  | [] => (0, false, nptr)
  | c :: cs =>
    let negative := decide (c = '-')
    let save := if c = '-' ∨ c = '+' then cs else c :: cs
    let r := parseLoop 0 false save
    if r.2.2.length = save.length then (0, negative, nptr)
    else (if r.2.1 then G_MAXUINT64 else r.1, negative, r.2.2)

/-- GLib's `g_ascii_strtoll(nptr, &end, 10)`: the magnitude read by
`g_parse_long_long`, signed and clamped to the `gint64` range. Returns the
value and the `end` pointer, `some rest` standing for a non-NULL pointer; GLib
never stores NULL in `end`. -/
def g_ascii_strtoll (nptr : CStr) : Int × Option CStr :=
  let r := g_parse_long_long nptr
  let result := r.1
  let negative := r.2.1
  if negative = true ∧ result > G_MAXINT64 + 1 then (-(G_MAXINT64 + 1 : Int), some r.2.2)
  else if negative = false ∧ result > G_MAXINT64 then ((G_MAXINT64 : Int), some r.2.2)
  else if negative = true then (-(result : Int), some r.2.2)
  else ((result : Int), some r.2.2)

/-- The C cast `(int)` of a `gint64`: reduction modulo 2^32 into the signed range. -/
def toInt32 (x : Int) : Int := (x + 2147483648) % 4294967296 - 2147483648

/-- A failed `g_assert` (by source line) or `g_assert_not_reached`: the process aborts. -/
inductive Abort
  | g_assert (line : Nat)
  | g_assert_not_reached
  deriving DecidableEq, Repr

instance {ε α : Type} [DecidableEq ε] [DecidableEq α] : DecidableEq (Except ε α)
  | .ok a, .ok b => if h : a = b then isTrue (by rw [h]) else isFalse (by simpa using h)
  | .error a, .error b => if h : a = b then isTrue (by rw [h]) else isFalse (by simpa using h)
  | .ok _, .error _ => isFalse (by simp)
  | .error _, .ok _ => isFalse (by simp)

/-- The index recovery of `update_sensor_value` (lines 156-162): the text
after the last '/' is read by `g_ascii_strtoll` in base 10 and cast to `int`;
each of the two `g_assert`s aborts when its pointer is NULL. -/
def parse_index (id : CStr) : Except Abort Int :=
  match g_strrstr id with
  | none => .error (.g_assert 158)
  | some offset =>
    match g_ascii_strtoll offset with
    | (_, none) => .error (.g_assert 162)
    | (n, some _) => .ok (toInt32 n)

/-! ## The libsensors backend -/

/-- The `sensors_feature_type` values of `sensors/sensors.h`; the plugin
names three of them, every other one (power, energy, current, ...) is `other`. -/
inductive sensors_feature_type
  | SENSORS_FEATURE_IN
  | SENSORS_FEATURE_FAN
  | SENSORS_FEATURE_TEMP
  | other (code : Nat)
  deriving DecidableEq, Repr

/-- The `sensors_subfeature_type` values of `sensors/sensors.h` that the
plugin asks for; every other one is `other`. -/
inductive sensors_subfeature_type
  | SENSORS_SUBFEATURE_IN_INPUT
  | SENSORS_SUBFEATURE_IN_MIN
  | SENSORS_SUBFEATURE_IN_MAX
  | SENSORS_SUBFEATURE_FAN_INPUT
  | SENSORS_SUBFEATURE_FAN_MIN
  | SENSORS_SUBFEATURE_TEMP_INPUT
  | SENSORS_SUBFEATURE_TEMP_MIN
  | SENSORS_SUBFEATURE_TEMP_MAX
  | SENSORS_SUBFEATURE_TEMP_CRIT
  | other (code : Nat)
  deriving DecidableEq, Repr

/-- A `sensors_subfeature`: its number on the chip and its type. -/
structure sensors_subfeature where
  number : Int
  type : sensors_subfeature_type
  deriving DecidableEq, Repr

/-- A `sensors_feature` as the plugin sees it: its type, its subfeatures, and
what `sensors_get_label` returns for it (`none` for NULL). -/
structure sensors_feature where
  type : sensors_feature_type
  subfeatures : List sensors_subfeature
  label : Option CStr
  deriving DecidableEq, Repr

/-- A detected chip: its `path`, what `sensors_snprintf_chip_name` does with a
buffer of `BUF_SIZE` bytes (return code and buffer content), and the features
that `sensors_get_features` iterates over. -/
structure sensors_chip_name where
  path : CStr
  snprintf_chip_name : Int × CStr
  features : List sensors_feature
  deriving DecidableEq, Repr

/-- A `const sensors_chip_name *` handed out by `sensors_get_detected_chips`:
the position of the chip in the table of the backend. -/
abbrev ChipHandle := Nat

/-- The outcome of one `sensors_get_value(chip, nr, &out)` call: the return
code and the value stored in `out`, if any. -/
structure GetValue where
  ret : Int
  stored : Option gdouble
  deriving DecidableEq, Repr

/-- The libsensors library at one moment: the detected chips in the order
`sensors_get_detected_chips(NULL, &nr)` yields them, the live values, and the
error texts of `sensors_strerror`. -/
structure Backend where
  chips : List sensors_chip_name
  sensors_get_value : ChipHandle → Int → GetValue
  sensors_strerror : Int → CStr

/-- The call `sensors_get_subfeature(chip, feature, type)`: the subfeature of
that type, or `none` for NULL. -/
def sensors_get_subfeature (feature : sensors_feature) (type : sensors_subfeature_type) :
    Option sensors_subfeature :=
  feature.subfeatures.find? (fun sf => decide (sf.type = type))

/-! ## Sensors and the indicator -/

/-- A `GError`. -/
structure GError where
  domain : CStr
  code : Int
  message : CStr
  deriving DecidableEq, Repr

/-- The two sensor shapes the plugin constructs: `is_sensor_new` with a units
string, and `is_temperature_sensor_new_full` in degrees Celsius. -/
inductive IsSensorShape
  | is_sensor (units : CStr)
  | is_temperature_sensor_celsius
  deriving DecidableEq, Repr

/-- Modelled from the spec: the `IsSensor` object of `is-sensor.c` and
`is-temperature-sensor.c`, as the attributes given at construction (source
tag, identifier, label, low, high, unit/kind) plus its current value and the
errors emitted on it. A bound is `none` while the local variable that carries
it has never been written. -/
structure IsSensor where
  shape : IsSensorShape
  family : CStr
  id : CStr
  label : CStr
  min : Option gdouble
  max : Option gdouble
  value : Option gdouble
  errors : List GError
  deriving DecidableEq, Repr

/-- Modelled from the spec: `is_sensor_new(family, id, label, min, max, units)`. -/
def is_sensor_new (family id label : CStr) (min max : Option gdouble) (units : CStr) : IsSensor :=
  { shape := .is_sensor units, family := family, id := id, label := label,
    min := min, max := max, value := none, errors := [] }

/-- Modelled from the spec: `is_temperature_sensor_new_full(family, id, label,
min, max, IS_TEMPERATURE_SENSOR_UNITS_CELSIUS)`. -/
def is_temperature_sensor_new_full (family id label : CStr) (min max : Option gdouble) :
    IsSensor :=
  { shape := .is_temperature_sensor_celsius, family := family, id := id, label := label,
    min := min, max := max, value := none, errors := [] }

/-- Modelled from the spec: `is_sensor_set_value`. -/
def is_sensor_set_value (sensor : IsSensor) (value : gdouble) : IsSensor :=
  { sensor with value := some value }

/-- Modelled from the spec: `is_sensor_emit_error`. -/
def is_sensor_emit_error (sensor : IsSensor) (error : GError) : IsSensor :=
  { sensor with errors := sensor.errors ++ [error] }

/-! ## The plugin -/

/-- The `g_warning` calls of the plugin, by message, with the string argument. -/
inductive Warning
  | name_string (path : CStr)
  | feature_type (chip_name_string : CStr)
  | input_subfeature (chip_name_string : CStr)
  | label (chip_name_string : CStr)
  | input_value (chip_name_string : CStr)
  | not_inited
  deriving DecidableEq, Repr

/-- What the plugin does that is visible outside it, apart from sensors. -/
inductive Event
  | g_warning (w : Warning)
  | g_debug
  | sensors_get_detected_chips
  | g_hash_table_destroy
  | sensors_cleanup
  deriving DecidableEq, Repr

/-- The `GHashTable` from identifier to chip handle, keyed by `g_str_equal`. -/
abbrev GHashTable := List (CStr × ChipHandle)

/-- The call `g_hash_table_insert`: an existing entry for the key is replaced. -/
def g_hash_table_insert (table : GHashTable) (key : CStr) (value : ChipHandle) : GHashTable :=
  (key, value) :: table.filter (fun e => !decide (e.1 = key))

/-- The value stored for a key in a table, `none` when the key is missing. -/
def lookup_entries : GHashTable → CStr → Option ChipHandle
  | [], _ => none
  | e :: rest, key => if e.1 = key then some e.2 else lookup_entries rest key

/-- The call `g_hash_table_lookup` on a table pointer: `none` for NULL, which
is what GLib returns for a missing key and for a NULL table. -/
def g_hash_table_lookup (table : Option GHashTable) (key : CStr) : Option ChipHandle :=
  match table with
  | none => none
  | some t => lookup_entries t key

/-- The `IsLibsensorsPluginPrivate` data: the sensors handed to the indicator
(oldest first), the `inited` flag and the `sensor_chip_names` table (`none`
for NULL), together with the events issued so far. -/
structure IsLibsensorsPlugin where
  indicator : List IsSensor
  inited : Bool
  sensor_chip_names : Option GHashTable
  events : List Event
  deriving DecidableEq, Repr

/-- Appends one event. -/
def IsLibsensorsPlugin.emit (self : IsLibsensorsPlugin) (e : Event) : IsLibsensorsPlugin :=
  { self with events := self.events ++ [e] }

/-- The function `is_libsensors_plugin_init` (lines 90-105) on zeroed private
data, given what `sensors_init(NULL)` returns. -/
def is_libsensors_plugin_init (sensors_init : Int) : IsLibsensorsPlugin :=
  if sensors_init = 0 then
    { indicator := [], inited := true, sensor_chip_names := some [], events := [] }
  else
    { indicator := [], inited := false, sensor_chip_names := none, events := [] }

/-- The function `is_libsensors_plugin_finalize` (lines 107-123). -/
def is_libsensors_plugin_finalize (self : IsLibsensorsPlugin) : IsLibsensorsPlugin :=
  let self1 :=
    match self.sensor_chip_names with
    | some _ => self.emit .g_hash_table_destroy
    | none => self
  if self1.inited then { self1.emit .sensors_cleanup with inited := false } else self1

/-- The function `get_chip_name_string` (lines 125-138): the formatted name,
or `none` for NULL when `sensors_snprintf_chip_name` returns a negative value. -/
def get_chip_name_string (chip : sensors_chip_name) : Option CStr :=
  if chip.snprintf_chip_name.1 < 0 then none else some chip.snprintf_chip_name.2

/-- The three subfeature pointers chosen by the first `switch`. -/
structure Subfeatures where
  input_feature : Option sensors_subfeature
  low_feature : Option sensors_subfeature
  high_feature : Option sensors_subfeature
  deriving DecidableEq, Repr

/-- The first `switch (main_feature->type)` of `process_sensors_chip_name`
(lines 205-247); `none` is its `default` branch. -/
def select_subfeatures (main_feature : sensors_feature) : Option Subfeatures :=
  match main_feature.type with
  | .SENSORS_FEATURE_IN =>
    some { input_feature := sensors_get_subfeature main_feature .SENSORS_SUBFEATURE_IN_INPUT,
           low_feature := sensors_get_subfeature main_feature .SENSORS_SUBFEATURE_IN_MIN,
           high_feature := sensors_get_subfeature main_feature .SENSORS_SUBFEATURE_IN_MAX }
  | .SENSORS_FEATURE_FAN =>
    some { input_feature := sensors_get_subfeature main_feature .SENSORS_SUBFEATURE_FAN_INPUT,
           low_feature := sensors_get_subfeature main_feature .SENSORS_SUBFEATURE_FAN_MIN,
           high_feature := none }
  | .SENSORS_FEATURE_TEMP =>
    some { input_feature := sensors_get_subfeature main_feature .SENSORS_SUBFEATURE_TEMP_INPUT,
           low_feature := sensors_get_subfeature main_feature .SENSORS_SUBFEATURE_TEMP_MIN,
           high_feature :=
             match sensors_get_subfeature main_feature .SENSORS_SUBFEATURE_TEMP_MAX with
             | some high_feature => some high_feature
             | none => sensors_get_subfeature main_feature .SENSORS_SUBFEATURE_TEMP_CRIT }
  | .other _ => none

/-- The statement `if (sub) sensors_get_value(chip, sub->number, &var)` (lines
266-272): the variable keeps its content unless the call stores a value. -/
def read_bound (b : Backend) (chip_name : ChipHandle) (sub : Option sensors_subfeature)
    (var : Option gdouble) : Option gdouble :=
  match sub with
  | none => var
  | some sf =>
    match (b.sensors_get_value chip_name sf.number).stored with
    | some v => some v
    | none => var

/-- The second `switch (main_feature->type)` (lines 282-298); `none` is its
`default` branch, `g_assert_not_reached()`. -/
def new_sensor (type : sensors_feature_type) (id label : CStr) (low high : Option gdouble) :
    Option IsSensor :=
  match type with
  | .SENSORS_FEATURE_IN => some (is_sensor_new "libsensors".toList id label low high "U".toList)
  | .SENSORS_FEATURE_FAN => some (is_sensor_new "libsensors".toList id label low high "U".toList)
  | .SENSORS_FEATURE_TEMP =>
    some (is_temperature_sensor_new_full "libsensors".toList id label low high)
  | .other _ => none

/-- How one iteration of the `while` loop of `process_sensors_chip_name` ends:
with a warning and `goto out`, in `g_assert_not_reached()`, or with a sensor
and the new contents of the local variables `low` and `high`. -/
inductive Iteration
  | goto_out (w : Warning)
  | not_reached
  | next (sensor : IsSensor) (low high : Option gdouble)
  deriving DecidableEq, Repr

/-- The body of the `while` loop of `process_sensors_chip_name` up to the
construction of the sensor (lines 205-298). `low` and `high` are the local
variables of that name: they are declared without an initialiser and live
across iterations, `none` standing for a variable that has not been written
yet. The `g_assert(chip_name_string && label)` of line 264 cannot fail there. -/
def loop_body (b : Backend) (chip_name : ChipHandle) (chip_name_string : CStr)
    (main_feature : sensors_feature) (low high : Option gdouble) : Iteration :=
  match select_subfeatures main_feature with
  | none => .goto_out (.feature_type chip_name_string)
  | some subs =>
    match subs.input_feature with
    | none => .goto_out (.input_subfeature chip_name_string)
    | some input_feature =>
      match main_feature.label with
      | none => .goto_out (.label chip_name_string)
      | some label =>
        let low1 := read_bound b chip_name subs.low_feature low
        let high1 := read_bound b chip_name subs.high_feature high
        if (b.sensors_get_value chip_name input_feature.number).ret < 0 then
          .goto_out (.input_value chip_name_string)
        else
          let id := g_strdup_printf chip_name_string input_feature.number
          match new_sensor main_feature.type id label low1 high1 with
          | none => .not_reached
          | some sensor => .next sensor low1 high1

/-- The `while` loop of `process_sensors_chip_name` (lines 203-307) over the
features still to come: after the body, the identifier is inserted into the
table with the chip handle and the sensor is added to the indicator (lines
299-306). Every `goto out` leaves the function. -/
def process_features (b : Backend) (chip_name : ChipHandle) (chip_name_string : CStr) :
    List sensors_feature → Option gdouble → Option gdouble → IsLibsensorsPlugin →
    Except Abort IsLibsensorsPlugin
  | [], _, _, self => .ok self
  | main_feature :: rest, low, high, self =>
    match loop_body b chip_name chip_name_string main_feature low high with
    | .goto_out w => .ok (self.emit (.g_warning w))
    | .not_reached => .error .g_assert_not_reached
    | .next sensor low1 high1 =>
      process_features b chip_name chip_name_string rest low1 high1
        { self with
          sensor_chip_names :=
            self.sensor_chip_names.map (fun t => g_hash_table_insert t sensor.id chip_name)
          indicator := self.indicator ++ [sensor] }

/-- The function `process_sensors_chip_name` (lines 181-311). -/
def process_sensors_chip_name (b : Backend) (self : IsLibsensorsPlugin)
    (chip_name : ChipHandle) (chip : sensors_chip_name) : Except Abort IsLibsensorsPlugin :=
  match get_chip_name_string chip with
  | none => .ok (self.emit (.g_warning (.name_string chip.path)))
  | some chip_name_string =>
    process_features b chip_name chip_name_string chip.features none none self

/-- The `while` loop of `is_libsensors_plugin_activate` (lines 328-331) over
the chips still to come, `nr` being the position of the next one. -/
def detected_chips_loop (b : Backend) :
    Nat → List sensors_chip_name → IsLibsensorsPlugin → Except Abort IsLibsensorsPlugin
  | _, [], self => .ok (self.emit .sensors_get_detected_chips)
  | nr, chip :: rest, self =>
    match process_sensors_chip_name b (self.emit .sensors_get_detected_chips) nr chip with
    | .error e => .error e
    | .ok self1 => detected_chips_loop b (nr + 1) rest self1

/-- The function `is_libsensors_plugin_activate` (lines 313-334). -/
def is_libsensors_plugin_activate (b : Backend) (self : IsLibsensorsPlugin) :
    Except Abort IsLibsensorsPlugin :=
  if self.inited = false then .ok (self.emit (.g_warning .not_inited))
  else detected_chips_loop b 0 b.chips (self.emit .g_debug)

/-- Modelled from the spec: `is_indicator_remove_all_sensors(indicator, family)`. -/
def is_indicator_remove_all_sensors (indicator : List IsSensor) (family : CStr) :
    List IsSensor :=
  indicator.filter (fun s => decide (s.family ≠ family))

/-- The function `is_libsensors_plugin_deactivate` (lines 336-344). -/
def is_libsensors_plugin_deactivate (self : IsLibsensorsPlugin) : IsLibsensorsPlugin :=
  { self with indicator := is_indicator_remove_all_sensors self.indicator "libsensors".toList }

/-- The message `"Error getting sensor value for sensor %s: %s"` of
`update_sensor_value`, untranslated, with its two arguments filled in. -/
def error_message (id strerror : CStr) : CStr :=
  "Error getting sensor value for sensor ".toList ++ id ++ ": ".toList ++ strerror

/-- The function `update_sensor_value` (lines 140-179), the handler of the
`update-value` signal of a sensor: returns the plugin and the sensor after the
call, or aborts on a failed assertion. The local `value` starts at `0.0`. -/
def update_sensor_value (b : Backend) (self : IsLibsensorsPlugin) (sensor : IsSensor) :
    Except Abort (IsLibsensorsPlugin × IsSensor) :=
  let id := sensor.id
  match g_hash_table_lookup self.sensor_chip_names id with
  | none => .error (.g_assert 154)
  | some found_chip =>
    match parse_index id with
    | .error e => .error e
    | .ok n =>
      let r := b.sensors_get_value found_chip n
      if r.ret < 0 then
        .ok (self, is_sensor_emit_error sensor
          { domain := "libsensors-plugin-error-quark".toList, code := 0,
            message := error_message id (b.sensors_strerror r.ret) })
      else .ok (self, is_sensor_set_value sensor (r.stored.getD 0))

/-- A run of activations, one backend snapshot per activation. -/
def activations : List Backend → IsLibsensorsPlugin → Except Abort IsLibsensorsPlugin
  | [], self => .ok self
  | b :: bs, self =>
    match is_libsensors_plugin_activate b self with
    | .error e => .error e
    | .ok self1 => activations bs self1

/-- The sensors that `process_sensors_chip_name` hands to an empty indicator
for one chip. -/
def handed_over (b : Backend) (chip_name : ChipHandle) (chip : sensors_chip_name) :
    List IsSensor :=
  match process_sensors_chip_name b (is_libsensors_plugin_init 0) chip_name chip with
  | .ok self => self.indicator
  | .error _ => []

/-- The table after the identifiers of the given sensors have been inserted,
in order, each with its chip handle. -/
def register (table : GHashTable) : List (ChipHandle × IsSensor) → GHashTable
  | [] => table
  | p :: ps => register (g_hash_table_insert table p.2.id p.1) ps

/-- The sensors handed over for the chips of a list, each with the handle of
its chip, `nr` being the position of the first chip. -/
def chip_pairs (b : Backend) : Nat → List sensors_chip_name → List (ChipHandle × IsSensor)
  | _, [] => []
  | nr, chip :: rest =>
    (handed_over b nr chip).map (fun s => (nr, s)) ++ chip_pairs b (nr + 1) rest

/-- The sensors handed over by a run of activations, each with its chip handle. -/
def all_pairs : List Backend → List (ChipHandle × IsSensor)
  | [] => []
  | b :: bs => chip_pairs b 0 b.chips ++ all_pairs bs

/-- The plugin `self1` is `self` with the sensors of `ps` appended to the
indicator and their identifiers inserted into the table. -/
def Extends (self self1 : IsLibsensorsPlugin) (ps : List (ChipHandle × IsSensor)) : Prop :=
  self1.indicator = self.indicator ++ ps.map (fun p => p.2) ∧
  self1.inited = self.inited ∧
  self1.sensor_chip_names = self.sensor_chip_names.map (fun t => register t ps)

/-- The number of the input subfeature that the first `switch` selects for a
feature, if any. -/
def input_number (f : sensors_feature) : Option Int :=
  ((select_subfeatures f).bind (fun subs => subs.input_feature)).map (fun sf => sf.number)

/-! ## The reference definition of enumeration

These definitions follow the words of the specification, not the code. -/

/-- The recognised kinds: Voltage, Fan, Temperature. -/
def spec_recognised : sensors_feature_type → Bool
  | .SENSORS_FEATURE_IN => true
  | .SENSORS_FEATURE_FAN => true
  | .SENSORS_FEATURE_TEMP => true
  | .other _ => false

/-- The Input column of the kind-to-role table. -/
def spec_input_role : sensors_feature_type → Option sensors_subfeature_type
  | .SENSORS_FEATURE_IN => some .SENSORS_SUBFEATURE_IN_INPUT
  | .SENSORS_FEATURE_FAN => some .SENSORS_SUBFEATURE_FAN_INPUT
  | .SENSORS_FEATURE_TEMP => some .SENSORS_SUBFEATURE_TEMP_INPUT
  | .other _ => none

/-- The input subfeature of a feature, by the kind-to-role table. -/
def spec_input (f : sensors_feature) : Option sensors_subfeature :=
  (spec_input_role f.type).bind (sensors_get_subfeature f)

/-- A feature has a recognised kind, an input subfeature, a label and a
successful input-value read. -/
def spec_feature_ok (b : Backend) (chip_name : ChipHandle) (f : sensors_feature) : Bool :=
  spec_recognised f.type &&
    match spec_input f with
    | none => false
    | some input => f.label.isSome && decide (0 ≤ (b.sensors_get_value chip_name input.number).ret)

/-- The logical sensor of a feature, its bounds left open: Voltage and Fan
share the generic shape with unit "U", Temperature is in Celsius; the
identifier is the chip-name string, '/', and the input subfeature number. -/
def spec_sensor (chip_name_string : CStr) (f : sensors_feature) : Option IsSensor :=
  match spec_input f, f.label with
  | some input, some label =>
    some { shape := if f.type = .SENSORS_FEATURE_TEMP then .is_temperature_sensor_celsius
                    else .is_sensor "U".toList
           family := "libsensors".toList
           id := chip_name_string ++ "/".toList ++ printf_d input.number
           label := label, min := none, max := none, value := none, errors := [] }
  | _, _ => none

/-- The contribution of one chip: nothing when its name fails to format,
else one sensor for each feature of the longest run of good features at the
front of its feature list. -/
def spec_chip (b : Backend) (chip_name : ChipHandle) (chip : sensors_chip_name) :
    List (Option IsSensor) :=
  match get_chip_name_string chip with
  | none => []
  | some chip_name_string =>
    (chip.features.takeWhile (spec_feature_ok b chip_name)).map (spec_sensor chip_name_string)

/-- The concatenation of the contributions of the chips, in backend order,
`nr` being the position of the first one. -/
def spec_chips (b : Backend) : Nat → List sensors_chip_name → List (Option IsSensor)
  | _, [] => []
  | nr, chip :: rest => spec_chip b nr chip ++ spec_chips b (nr + 1) rest

/-- The reference enumeration of a backend. -/
def spec_enumerate (b : Backend) : List (Option IsSensor) := spec_chips b 0 b.chips

/-- A sensor with its two bounds left open. -/
def forget_bounds (s : IsSensor) : IsSensor := { s with min := none, max := none }


/-! ## Concrete backends -/

/-- A feature of the given type with the listed subfeatures and label. -/
def mkFeature (type : sensors_feature_type) (subs : List (Int × sensors_subfeature_type))
    (label : Option CStr) : sensors_feature :=
  { type := type, subfeatures := subs.map (fun p => { number := p.1, type := p.2 }),
    label := label }

/-- A chip "chip-A" holding one temperature feature labelled "CPU": input
(number 0) reads 42.0, min (number 1) reads 10.0, crit (number 2) reads 85.0,
and there is no max subfeature. -/
def chipA : sensors_chip_name :=
  { path := "/sys/class/hwmon/hwmon0".toList
    snprintf_chip_name := (6, "chip-A".toList)
    features :=
      [mkFeature .SENSORS_FEATURE_TEMP
        [(0, .SENSORS_SUBFEATURE_TEMP_INPUT), (1, .SENSORS_SUBFEATURE_TEMP_MIN),
         (2, .SENSORS_SUBFEATURE_TEMP_CRIT)] (some "CPU".toList)] }

/-- The backend holding `chipA` alone. -/
def backendA : Backend :=
  { chips := [chipA]
    sensors_get_value := fun _ nr =>
      if nr = 0 then ⟨0, some 42⟩ else if nr = 1 then ⟨0, some 10⟩
      else if nr = 2 then ⟨0, some 85⟩ else ⟨-7, none⟩
    sensors_strerror := fun _ => "I/O error".toList }

/-- The temperature feature of `chipA`. -/
def featureA : sensors_feature :=
  mkFeature .SENSORS_FEATURE_TEMP
    [(0, .SENSORS_SUBFEATURE_TEMP_INPUT), (1, .SENSORS_SUBFEATURE_TEMP_MIN),
     (2, .SENSORS_SUBFEATURE_TEMP_CRIT)] (some "CPU".toList)

/-- The sensor of the scenario: Celsius, "chip-A/0", "CPU", low 10, high 85. -/
def sensorA : IsSensor :=
  is_temperature_sensor_new_full "libsensors".toList "chip-A/0".toList "CPU".toList
    (some 10) (some 85)

/-- A chip "chip-B" with a voltage feature "in0" (input number 0, max number
1) followed by a fan feature "fan1" (input number 2). -/
def chipB : sensors_chip_name :=
  { path := "/sys/class/hwmon/hwmon1".toList
    snprintf_chip_name := (6, "chip-B".toList)
    features :=
      [mkFeature .SENSORS_FEATURE_IN
        [(0, .SENSORS_SUBFEATURE_IN_INPUT), (1, .SENSORS_SUBFEATURE_IN_MAX)]
        (some "in0".toList),
       mkFeature .SENSORS_FEATURE_FAN [(2, .SENSORS_SUBFEATURE_FAN_INPUT)]
        (some "fan1".toList)] }

/-- The backend holding `chipB` alone: number 0 reads 3, number 1 reads 12,
number 2 reads 1200. -/
def backendB : Backend :=
  { chips := [chipB]
    sensors_get_value := fun _ nr =>
      if nr = 0 then ⟨0, some 3⟩ else if nr = 1 then ⟨0, some 12⟩
      else if nr = 2 then ⟨0, some 1200⟩ else ⟨-7, none⟩
    sensors_strerror := fun _ => "I/O error".toList }

/-- A chip "chip-C" whose first feature, a voltage "in0", has a min
subfeature but no input subfeature, and whose second feature, a temperature
"temp1", is fully valid (input number 2). -/
def chipC : sensors_chip_name :=
  { path := "/sys/class/hwmon/hwmon2".toList
    snprintf_chip_name := (6, "chip-C".toList)
    features :=
      [mkFeature .SENSORS_FEATURE_IN [(1, .SENSORS_SUBFEATURE_IN_MIN)] (some "in0".toList),
       mkFeature .SENSORS_FEATURE_TEMP [(2, .SENSORS_SUBFEATURE_TEMP_INPUT)]
        (some "temp1".toList)] }

/-- The backend holding `chipC` alone; every read succeeds with 42. -/
def backendC : Backend :=
  { chips := [chipC]
    sensors_get_value := fun _ _ => ⟨0, some 42⟩
    sensors_strerror := fun _ => "I/O error".toList }

/-- A chip whose name fails to format. -/
def chipNameless : sensors_chip_name :=
  { path := "/sys/class/hwmon/hwmon3".toList
    snprintf_chip_name := (-1, [])
    features := [featureA] }

/-- A backend with three chips: one whose name fails to format, `chipC`, and
`chipA`; the values are those of `backendA`. -/
def backendD : Backend :=
  { chips := [chipNameless, chipC, chipA]
    sensors_get_value := backendA.sensors_get_value
    sensors_strerror := backendA.sensors_strerror }

/-- The plugin after one activation over `backendA`. -/
def pluginA : IsLibsensorsPlugin :=
  { indicator := [sensorA], inited := true
    sensor_chip_names := some [("chip-A/0".toList, 0)]
    events := [.g_debug, .sensors_get_detected_chips, .sensors_get_detected_chips] }

/-- The values of `backendA` with every read failing with code -5. -/
def backendFailing : Backend :=
  { chips := [chipA]
    sensors_get_value := fun _ _ => ⟨-5, none⟩
    sensors_strerror := fun _ => "I/O error".toList }

/-- A backend with the two chips `chipB` and `chipA`; the values are those of
`backendA`. -/
def backendE : Backend :=
  { chips := [chipB, chipA]
    sensors_get_value := backendA.sensors_get_value
    sensors_strerror := backendA.sensors_strerror }

theorem digitChar_isDig (d : Nat) : IsDig (digitChar d) := by
  unfold digitChar; split <;> exact by decide

theorem digitChar_toNat (d : Nat) (h : d < 10) : (digitChar d).toNat - 48 = d := by
  interval_cases d <;> rfl

theorem isDig_ne_slash {c : Char} (h : IsDig c) : c ≠ '/' := by
  rintro rfl; exact absurd h (by decide)

theorem isDig_not_space {c : Char} (h : IsDig c) : ISSPACE c = false := by
  have h1 : c ≠ ' ' := by rintro rfl; exact absurd h (by decide)
  have h2 : c ≠ Char.ofNat 9 := by rintro rfl; exact absurd h (by decide)
  have h3 : c ≠ Char.ofNat 10 := by rintro rfl; exact absurd h (by decide)
  have h4 : c ≠ Char.ofNat 11 := by rintro rfl; exact absurd h (by decide)
  have h5 : c ≠ Char.ofNat 12 := by rintro rfl; exact absurd h (by decide)
  have h6 : c ≠ Char.ofNat 13 := by rintro rfl; exact absurd h (by decide)
  simp [ISSPACE, h1, h2, h3, h4, h5, h6]

theorem isDig_not_sign {c : Char} (h : IsDig c) : c ≠ '-' ∧ c ≠ '+' := by
  constructor <;> (rintro rfl; exact absurd h (by decide))

theorem digitsCore_isDig (fuel n : Nat) (acc : CStr) (hacc : ∀ c ∈ acc, IsDig c) :
    ∀ c ∈ digitsCore fuel n acc, IsDig c := by
  induction fuel generalizing n acc with
  | zero => simpa [digitsCore] using hacc
  | succ k ih =>
    have hcons : ∀ c ∈ digitChar (n % 10) :: acc, IsDig c := by
      intro c hc
      rcases List.mem_cons.mp hc with rfl | hc
      · exact digitChar_isDig _
      · exact hacc c hc
    unfold digitsCore
    split
    · exact hcons
    · exact ih _ _ hcons

theorem decimalNat_isDig (n : Nat) : ∀ c ∈ decimalNat n, IsDig c :=
  digitsCore_isDig _ _ _ (by simp)

theorem digitsCore_ne_nil (fuel n : Nat) (acc : CStr) (hacc : acc ≠ []) :
    digitsCore fuel n acc ≠ [] := by
  induction fuel generalizing n acc with
  | zero => simpa [digitsCore] using hacc
  | succ k ih =>
    unfold digitsCore
    split
    · simp
    · exact ih _ _ (by simp)

theorem decimalNat_ne_nil (n : Nat) : decimalNat n ≠ [] := by
  unfold decimalNat digitsCore
  split
  · simp
  · exact digitsCore_ne_nil _ _ _ (by simp)

theorem parseLoop_digit (u d : Nat) (ovf : Bool) (cs : CStr) (hd : d < 10)
    (h : u * 10 + d ≤ G_MAXUINT64) :
    parseLoop u ovf (digitChar d :: cs) = parseLoop (u * 10 + d) ovf cs := by
  rw [parseLoop, if_pos (show '0' ≤ digitChar d ∧ digitChar d ≤ '9' from digitChar_isDig d)]
  simp only [digitChar_toNat d hd]
  rw [if_neg]
  unfold G_MAXUINT64 at *
  omega

theorem parseLoop_digitsCore (fuel n : Nat) (acc : CStr) (hf : n < fuel)
    (hn : n ≤ G_MAXUINT64) :
    parseLoop 0 false (digitsCore fuel n acc) = parseLoop n false acc := by
  induction fuel generalizing n acc with
  | zero => omega
  | succ k ih =>
    have hd : n % 10 < 10 := Nat.mod_lt _ (by decide)
    unfold digitsCore
    split
    next h0 =>
      have hn10 : n % 10 = n := by omega
      rw [parseLoop_digit 0 (n % 10) false acc hd (by unfold G_MAXUINT64; omega)]
      simp [hn10]
    next h0 =>
      rw [ih (n / 10) _ (by omega) (by omega),
        parseLoop_digit (n / 10) (n % 10) false acc hd (by omega)]
      congr 1
      omega

theorem parseLoop_decimalNat (n : Nat) (hn : n ≤ G_MAXUINT64) :
    parseLoop 0 false (decimalNat n) = (n, false, []) := by
  unfold decimalNat
  rw [parseLoop_digitsCore _ _ _ (by omega) hn, parseLoop]

theorem skipSpace_cons_of_not_space (c : Char) (cs : CStr) (h : ISSPACE c = false) :
    skipSpace (c :: cs) = c :: cs := by
  simp [skipSpace, h]

theorem g_parse_long_long_decimalNat (n : Nat) (hn : n ≤ G_MAXUINT64) :
    g_parse_long_long (decimalNat n) = (n, false, []) := by
  have hp := parseLoop_decimalNat n hn
  obtain ⟨c, cs, hcs⟩ := List.exists_cons_of_ne_nil (decimalNat_ne_nil n)
  have hc : IsDig c := decimalNat_isDig n c (by simp [hcs])
  rw [hcs] at hp ⊢
  have hs := isDig_not_sign hc
  have hsave : (if c = '-' ∨ c = '+' then cs else c :: cs) = c :: cs :=
    if_neg (by rintro (h | h); exacts [hs.1 h, hs.2 h])
  simp only [g_parse_long_long, skipSpace_cons_of_not_space c cs (isDig_not_space hc), hsave, hp]
  simp [hs.1]

theorem g_parse_long_long_neg_decimalNat (n : Nat) (hn : n ≤ G_MAXUINT64) :
    g_parse_long_long ('-' :: decimalNat n) = (n, true, []) := by
  have hp := parseLoop_decimalNat n hn
  have hne := decimalNat_ne_nil n
  simp only [g_parse_long_long, skipSpace_cons_of_not_space '-' _ (by decide)]
  simp [hp, hne, eq_comm]

theorem g_ascii_strtoll_printf_d (i : Int) (hlo : -(G_MAXINT64 : Int) - 1 ≤ i)
    (hhi : i ≤ G_MAXINT64) : g_ascii_strtoll (printf_d i) = (i, some []) := by
  unfold printf_d
  split
  next hneg =>
    rw [g_ascii_strtoll, g_parse_long_long_neg_decimalNat _ (by unfold G_MAXUINT64 G_MAXINT64 at *; omega)]
    simp only [true_and, Int.natCast_natAbs]
    unfold G_MAXINT64 at *
    rw [if_neg (by omega), if_neg (by simp), if_pos trivial, abs_of_neg hneg, neg_neg]
  next hpos =>
    rw [g_ascii_strtoll, g_parse_long_long_decimalNat _ (by unfold G_MAXUINT64 G_MAXINT64 at *; omega)]
    simp only [Int.natCast_natAbs]
    unfold G_MAXINT64 at *
    rw [if_neg (by simp), if_neg (by omega), if_neg (by simp), abs_of_nonneg (by omega)]

theorem g_strrstr_append (s d : CStr) (hd : ∀ c ∈ d, c ≠ '/') :
    g_strrstr (s ++ '/' :: d) = some d := by
  have hd0 : g_strrstr d = none := by
    induction d with
    | nil => rfl
    | cons c cs ih =>
      have hc : c ≠ '/' := hd c (by simp)
      simp [g_strrstr, ih (fun x hx => hd x (by simp [hx])), hc]
  induction s with
  | nil => simp [g_strrstr, hd0]
  | cons c cs ih => simp [g_strrstr, ih]

theorem printf_d_no_slash (i : Int) : ∀ c ∈ printf_d i, c ≠ '/' := by
  intro c hc
  unfold printf_d at hc
  split at hc
  · rcases List.mem_cons.mp hc with rfl | hc
    · decide
    · exact isDig_ne_slash (decimalNat_isDig _ c hc)
  · exact isDig_ne_slash (decimalNat_isDig _ c hc)

theorem toInt32_of_int32 (i : Int) (hlo : -2147483648 ≤ i) (hhi : i ≤ 2147483647) :
    toInt32 i = i := by
  unfold toInt32; omega

/-! ## Facts about the loop body -/

theorem loop_body_cases (b : Backend) (h : ChipHandle) (nm : CStr) (f : sensors_feature)
    (low high : Option gdouble) :
    (∃ w, loop_body b h nm f low high = .goto_out w ∧ spec_feature_ok b h f = false) ∨
    (∃ s l hi, loop_body b h nm f low high = .next s l hi ∧ spec_feature_ok b h f = true ∧
      spec_sensor nm f = some (forget_bounds s) ∧
      ∃ n, input_number f = some n ∧ s.id = g_strdup_printf nm n) := by
  obtain ⟨type, subs, label⟩ := f
  cases type with
  | other code =>
    left
    exact ⟨.feature_type nm, by simp [loop_body, select_subfeatures],
      by simp [spec_feature_ok, spec_recognised]⟩
  | SENSORS_FEATURE_IN =>
    simp only [loop_body, select_subfeatures, spec_feature_ok, spec_recognised, spec_input,
      spec_input_role, spec_sensor, input_number, Option.bind, Option.map]
    cases hi : sensors_get_subfeature ⟨.SENSORS_FEATURE_IN, subs, label⟩ .SENSORS_SUBFEATURE_IN_INPUT with
    | none => simp
    | some inp =>
      cases label with
      | none => simp
      | some lab =>
        by_cases hr : (b.sensors_get_value h inp.number).ret < 0
        · simp [hr]
        · simp [hr, new_sensor, is_sensor_new, forget_bounds, g_strdup_printf]
          omega
  | SENSORS_FEATURE_FAN =>
    simp only [loop_body, select_subfeatures, spec_feature_ok, spec_recognised, spec_input,
      spec_input_role, spec_sensor, input_number, Option.bind, Option.map]
    cases hi : sensors_get_subfeature ⟨.SENSORS_FEATURE_FAN, subs, label⟩ .SENSORS_SUBFEATURE_FAN_INPUT with
    | none => simp
    | some inp =>
      cases label with
      | none => simp
      | some lab =>
        by_cases hr : (b.sensors_get_value h inp.number).ret < 0
        · simp [hr]
        · simp [hr, new_sensor, is_sensor_new, forget_bounds, g_strdup_printf]
          omega
  | SENSORS_FEATURE_TEMP =>
    simp only [loop_body, select_subfeatures, spec_feature_ok, spec_recognised, spec_input,
      spec_input_role, spec_sensor, input_number, Option.bind, Option.map]
    cases hi : sensors_get_subfeature ⟨.SENSORS_FEATURE_TEMP, subs, label⟩ .SENSORS_SUBFEATURE_TEMP_INPUT with
    | none => simp
    | some inp =>
      cases label with
      | none => simp
      | some lab =>
        by_cases hr : (b.sensors_get_value h inp.number).ret < 0
        · simp [hr]
        · simp [hr, new_sensor, is_temperature_sensor_new_full, forget_bounds, g_strdup_printf]
          omega

/-! ## Facts about the identifier table -/

theorem lookup_filter_ne (t : GHashTable) (k k' : CStr) (hk : k' ≠ k) :
    lookup_entries (t.filter (fun e => !decide (e.1 = k))) k' = lookup_entries t k' := by
  induction t with
  | nil => rfl
  | cons e rest ih =>
    rw [List.filter_cons]
    by_cases he : e.1 = k
    · have hne : ¬ e.1 = k' := fun h => hk (h.symm.trans he)
      have hd : (!decide (e.1 = k)) = false := by simp [he]
      rw [hd]
      simp only [Bool.false_eq_true, if_false]
      rw [ih]
      conv_rhs => rw [lookup_entries, if_neg hne]
    · have hd : (!decide (e.1 = k)) = true := by simp [he]
      rw [hd]
      simp only [if_true]
      rw [lookup_entries, lookup_entries]
      by_cases he' : e.1 = k'
      · rw [if_pos he', if_pos he']
      · rw [if_neg he', if_neg he', ih]

theorem lookup_insert (t : GHashTable) (k k' : CStr) (v : ChipHandle) :
    lookup_entries (g_hash_table_insert t k v) k' =
      if k = k' then some v else lookup_entries t k' := by
  by_cases hk : k = k'
  · simp [g_hash_table_insert, lookup_entries, hk]
  · have hk' : k' ≠ k := fun h => hk h.symm
    simp only [g_hash_table_insert, lookup_entries, hk, if_false]
    exact lookup_filter_ne t k k' hk'

/-! ## What the loops do to the plugin -/

theorem process_features_spec (b : Backend) (h : ChipHandle) (nm : CStr)
    (fs : List sensors_feature) :
    ∀ low high, ∃ ss : List IsSensor,
      (∀ self, ∃ self1, process_features b h nm fs low high self = .ok self1 ∧
        Extends self self1 (ss.map (fun s => (h, s)))) ∧
      ss.map (fun s => some (forget_bounds s)) =
        (fs.takeWhile (spec_feature_ok b h)).map (spec_sensor nm) ∧
      ss.map (fun s => some s.id) =
        (fs.takeWhile (spec_feature_ok b h)).map
          (fun f => (input_number f).map (g_strdup_printf nm)) := by
  induction fs with
  | nil =>
    intro low high
    exact ⟨[], fun self => ⟨self, rfl, by simp [Extends, register]⟩, rfl, rfl⟩
  | cons f rest ih =>
    intro low high
    rcases loop_body_cases b h nm f low high with ⟨w, hw, hok⟩ | ⟨s, l, hi, hn, hok, hs, n, hnum, hid⟩
    · refine ⟨[], fun self => ⟨self.emit (.g_warning w), by simp [process_features, hw],
        by simp [Extends, register, IsLibsensorsPlugin.emit]⟩, ?_, ?_⟩
      · simp [List.takeWhile, hok]
      · simp [List.takeWhile, hok]
    · obtain ⟨ss, hrun, hspec, hids⟩ := ih l hi
      refine ⟨s :: ss, fun self => ?_, ?_, ?_⟩
      · obtain ⟨self1, hr, hind, hinit, hreg⟩ := hrun
          { self with
            sensor_chip_names :=
              self.sensor_chip_names.map (fun t => g_hash_table_insert t s.id h)
            indicator := self.indicator ++ [s] }
        refine ⟨self1, by simp [process_features, hn, hr], ?_, hinit, ?_⟩
        · simp [hind]
        · rw [hreg]
          cases self.sensor_chip_names <;> simp [register]
      · simp [List.takeWhile, hok, hs, hspec]
      · simp [List.takeWhile, hok, hnum, hid, hids]

theorem register_append (t : GHashTable) (ps qs : List (ChipHandle × IsSensor)) :
    register t (ps ++ qs) = register (register t ps) qs := by
  induction ps generalizing t with
  | nil => rfl
  | cons p ps ih => simp [register, ih]

theorem Extends.trans {a b c : IsLibsensorsPlugin} {ps qs : List (ChipHandle × IsSensor)}
    (h1 : Extends a b ps) (h2 : Extends b c qs) : Extends a c (ps ++ qs) := by
  obtain ⟨i1, n1, r1⟩ := h1
  obtain ⟨i2, n2, r2⟩ := h2
  refine ⟨by simp [i2, i1], n2.trans n1, ?_⟩
  rw [r2, r1]
  cases a.sensor_chip_names <;> simp [register_append]

theorem Extends.of_emit {a b : IsLibsensorsPlugin} {e : Event}
    {ps : List (ChipHandle × IsSensor)} (h : Extends (a.emit e) b ps) : Extends a b ps := h

theorem process_sensors_chip_name_spec (b : Backend) (h : ChipHandle) (chip : sensors_chip_name) :
    ∃ ss : List IsSensor,
      (∀ self, ∃ self1, process_sensors_chip_name b self h chip = .ok self1 ∧
        Extends self self1 (ss.map (fun s => (h, s)))) ∧
      ss.map (fun s => some (forget_bounds s)) = spec_chip b h chip ∧
      ∀ s ∈ ss, ∃ nm n, get_chip_name_string chip = some nm ∧ s.id = g_strdup_printf nm n := by
  unfold process_sensors_chip_name spec_chip
  cases hname : get_chip_name_string chip with
  | none =>
    exact ⟨[], fun self => ⟨self.emit (.g_warning (.name_string chip.path)), rfl,
      by simp [Extends, register, IsLibsensorsPlugin.emit]⟩, rfl, by simp⟩
  | some nm =>
    obtain ⟨ss, hrun, hspec, hids⟩ := process_features_spec b h nm chip.features none none
    refine ⟨ss, hrun, hspec, fun s hs => ?_⟩
    have hmem : some s.id ∈ ss.map (fun s => some s.id) := List.mem_map.mpr ⟨s, hs, rfl⟩
    rw [hids] at hmem
    obtain ⟨f, _, hf⟩ := List.mem_map.mp hmem
    cases hn : input_number f with
    | none => simp [hn] at hf
    | some n =>
      simp only [hn, Option.map_some', Option.some.injEq] at hf
      exact ⟨nm, n, rfl, hf.symm⟩

theorem handed_over_eq (b : Backend) (h : ChipHandle) (chip : sensors_chip_name)
    (ss : List IsSensor)
    (hrun : ∀ self, ∃ self1, process_sensors_chip_name b self h chip = .ok self1 ∧
        Extends self self1 (ss.map (fun s => (h, s)))) :
    handed_over b h chip = ss := by
  obtain ⟨self1, hr, hind, _, _⟩ := hrun (is_libsensors_plugin_init 0)
  unfold handed_over
  rw [hr]
  simpa [is_libsensors_plugin_init, Function.comp_def] using hind

theorem handed_over_spec (b : Backend) (h : ChipHandle) (chip : sensors_chip_name) :
    (∀ self, ∃ self1, process_sensors_chip_name b self h chip = .ok self1 ∧
        Extends self self1 ((handed_over b h chip).map (fun s => (h, s)))) ∧
      (handed_over b h chip).map (fun s => some (forget_bounds s)) = spec_chip b h chip ∧
      ∀ s ∈ handed_over b h chip, ∃ nm n,
        get_chip_name_string chip = some nm ∧ s.id = g_strdup_printf nm n := by
  obtain ⟨ss, hrun, hspec, hids⟩ := process_sensors_chip_name_spec b h chip
  rw [handed_over_eq b h chip ss hrun]
  exact ⟨hrun, hspec, hids⟩

theorem detected_chips_loop_spec (b : Backend) (chips : List sensors_chip_name) :
    ∀ nr self, ∃ self1, detected_chips_loop b nr chips self = .ok self1 ∧
      Extends self self1 (chip_pairs b nr chips) := by
  induction chips with
  | nil =>
    intro nr self
    exact ⟨self.emit .sensors_get_detected_chips, rfl,
      by simp [Extends, chip_pairs, register, IsLibsensorsPlugin.emit]⟩
  | cons chip rest ih =>
    intro nr self
    obtain ⟨self1, hr1, he1⟩ := (handed_over_spec b nr chip).1 (self.emit .sensors_get_detected_chips)
    obtain ⟨self2, hr2, he2⟩ := ih (nr + 1) self1
    refine ⟨self2, by simp [detected_chips_loop, hr1, hr2], ?_⟩
    exact Extends.trans (Extends.of_emit he1) he2

theorem activate_spec (b : Backend) (self : IsLibsensorsPlugin) (hinit : self.inited = true) :
    ∃ self1, is_libsensors_plugin_activate b self = .ok self1 ∧
      Extends self self1 (chip_pairs b 0 b.chips) := by
  obtain ⟨self1, hr, he⟩ := detected_chips_loop_spec b b.chips 0 (self.emit .g_debug)
  exact ⟨self1, by simp [is_libsensors_plugin_activate, hinit, hr], Extends.of_emit he⟩

theorem chip_pairs_spec (b : Backend) (chips : List sensors_chip_name) :
    ∀ nr, (chip_pairs b nr chips).map (fun p => some (forget_bounds p.2)) =
      spec_chips b nr chips := by
  induction chips with
  | nil => intro nr; rfl
  | cons chip rest ih =>
    intro nr
    simp only [chip_pairs, spec_chips, List.map_append, List.map_map, ih]
    rw [← (handed_over_spec b nr chip).2.1]
    rfl

theorem activations_spec (bs : List Backend) :
    ∀ self, self.inited = true → ∃ self1, activations bs self = .ok self1 ∧
      Extends self self1 (all_pairs bs) := by
  induction bs with
  | nil =>
    intro self _
    exact ⟨self, rfl, by simp [Extends, all_pairs, register]⟩
  | cons b bs ih =>
    intro self hinit
    obtain ⟨self1, hr1, he1⟩ := activate_spec b self hinit
    obtain ⟨self2, hr2, he2⟩ := ih self1 (he1.2.1.trans hinit)
    exact ⟨self2, by simp [activations, hr1, hr2], Extends.trans he1 he2⟩

/-! ## Facts about the read path -/

theorem g_ascii_strtoll_end (nptr : CStr) : ∃ e, (g_ascii_strtoll nptr).2 = some e := by
  unfold g_ascii_strtoll
  simp only []
  split_ifs <;> exact ⟨_, rfl⟩

theorem parse_index_of_slash (id offset : CStr) (hoff : g_strrstr id = some offset) :
    parse_index id = .ok (toInt32 (g_ascii_strtoll offset).1) := by
  obtain ⟨e, he⟩ := g_ascii_strtoll_end offset
  unfold parse_index
  rw [hoff]
  simp only []
  rcases hx : g_ascii_strtoll offset with ⟨n, e1⟩
  rw [hx] at he
  simp only at he
  subst he
  rfl

theorem isInfix_error_message_id (id strerror : CStr) :
    id <:+: error_message id strerror :=
  ⟨"Error getting sensor value for sensor ".toList, ": ".toList ++ strerror, by
    simp [error_message]⟩

theorem isInfix_error_message_strerror (id strerror : CStr) :
    strerror <:+: error_message id strerror :=
  ⟨"Error getting sensor value for sensor ".toList ++ id ++ ": ".toList, [], by
    simp [error_message]⟩

/-! ## Identifiers are injective -/

theorem foldl_digitsCore (fuel n : Nat) (acc : CStr) (hf : n < fuel) :
    List.foldl (fun a c => a * 10 + (c.toNat - 48)) 0 (digitsCore fuel n acc) =
      List.foldl (fun a c => a * 10 + (c.toNat - 48)) n acc := by
  induction fuel generalizing n acc with
  | zero => omega
  | succ k ih =>
    have hd : n % 10 < 10 := Nat.mod_lt _ (by decide)
    unfold digitsCore
    split
    next h0 =>
      have hn10 : n % 10 = n := by omega
      simp only [List.foldl_cons, digitChar_toNat _ hd, Nat.zero_mul, Nat.zero_add]
      rw [hn10]
    next h0 =>
      rw [ih (n / 10) _ (by omega)]
      simp only [List.foldl, digitChar_toNat _ hd]
      congr 1
      omega

theorem decimalNat_injective (m n : Nat) (h : decimalNat m = decimalNat n) : m = n := by
  have hm := foldl_digitsCore (m + 1) m [] (by omega)
  have hn := foldl_digitsCore (n + 1) n [] (by omega)
  unfold decimalNat at h
  rw [h, hn] at hm
  simpa using hm.symm

theorem printf_d_injective (i j : Int) (h : printf_d i = printf_d j) : i = j := by
  have hminus : ∀ n, '-' ∉ decimalNat n := fun n hmem =>
    absurd (decimalNat_isDig n _ hmem) (by decide)
  unfold printf_d at h
  split_ifs at h with hi hj hj
  · have := decimalNat_injective _ _ (List.cons.inj h).2
    omega
  · exact absurd (h ▸ List.mem_cons_self _ _) (hminus _)
  · exact absurd (h.symm ▸ List.mem_cons_self _ _) (hminus _)
  · have := decimalNat_injective _ _ h
    omega

theorem g_strdup_printf_injective (name1 name2 : CStr) (n1 n2 : Int)
    (h : g_strdup_printf name1 n1 = g_strdup_printf name2 n2) : name1 = name2 ∧ n1 = n2 := by
  have h1 := g_strrstr_append name1 _ (printf_d_no_slash n1)
  have h2 := g_strrstr_append name2 _ (printf_d_no_slash n2)
  unfold g_strdup_printf at h
  rw [h, h2] at h1
  have hd : printf_d n2 = printf_d n1 := Option.some.inj h1
  rw [hd] at h
  exact ⟨List.append_cancel_right h, (printf_d_injective _ _ hd).symm⟩

/-! ## Where the handed-over sensors come from -/

theorem mem_chip_pairs (b : Backend) (chips : List sensors_chip_name) :
    ∀ nr p, p ∈ chip_pairs b nr chips ↔
      ∃ i chip, chips[i]? = some chip ∧ p.1 = nr + i ∧ p.2 ∈ handed_over b p.1 chip := by
  induction chips with
  | nil => intro nr p; simp [chip_pairs]
  | cons c rest ih =>
    intro nr p
    simp only [chip_pairs, List.mem_append, List.mem_map, ih]
    constructor
    · rintro (⟨s, hs, rfl⟩ | ⟨i, chip, hi, hp, hmem⟩)
      · exact ⟨0, c, by simp, rfl, hs⟩
      · exact ⟨i + 1, chip, by simpa using hi, by rw [hp, Nat.add_assoc, Nat.add_comm 1 i], hmem⟩
    · rintro ⟨i, chip, hi, hp, hmem⟩
      cases i with
      | zero =>
        left
        simp only [List.getElem?_cons_zero, Option.some.injEq] at hi
        subst hi
        simp only [Nat.add_zero] at hp
        exact ⟨p.2, hp ▸ hmem, by rw [← hp]⟩
      | succ i =>
        right
        exact ⟨i, chip, by simpa using hi, by rw [hp, Nat.add_assoc, Nat.add_comm 1 i], hmem⟩

theorem mem_all_pairs (bs : List Backend) (p : ChipHandle × IsSensor) :
    p ∈ all_pairs bs ↔
      ∃ b ∈ bs, ∃ chip, b.chips[p.1]? = some chip ∧ p.2 ∈ handed_over b p.1 chip := by
  induction bs with
  | nil => simp [all_pairs]
  | cons b bs ih =>
    simp only [all_pairs, List.mem_append, ih, mem_chip_pairs, List.mem_cons]
    constructor
    · rintro (⟨i, chip, hi, hp, hmem⟩ | ⟨b1, hb1, h⟩)
      · have : i = p.1 := by simpa using hp.symm
        subst this
        exact ⟨b, Or.inl rfl, chip, hi, hmem⟩
      · exact ⟨b1, Or.inr hb1, h⟩
    · rintro ⟨b1, rfl | hb1, chip, hi, hmem⟩
      · exact Or.inl ⟨p.1, chip, hi, by simp, hmem⟩
      · exact Or.inr ⟨b1, hb1, chip, hi, hmem⟩

theorem handed_over_id (b : Backend) (h : ChipHandle) (chip : sensors_chip_name) (s : IsSensor)
    (hs : s ∈ handed_over b h chip) :
    ∃ nm n, get_chip_name_string chip = some nm ∧ s.id = g_strdup_printf nm n :=
  (handed_over_spec b h chip).2.2 s hs

theorem handed_over_ids (b : Backend) (h : ChipHandle) (chip : sensors_chip_name) (nm : CStr)
    (hname : get_chip_name_string chip = some nm) :
    (handed_over b h chip).map (fun s => some s.id) =
      (chip.features.takeWhile (spec_feature_ok b h)).map
        (fun f => (input_number f).map (g_strdup_printf nm)) := by
  obtain ⟨ss, hrun, -, hids⟩ := process_features_spec b h nm chip.features none none
  have hrun1 : ∀ self, ∃ self1, process_sensors_chip_name b self h chip = .ok self1 ∧
      Extends self self1 (ss.map (fun s => (h, s))) := by
    intro self
    simpa [process_sensors_chip_name, hname] using hrun self
  rw [handed_over_eq b h chip ss hrun1]
  exact hids

theorem handed_over_ids_nodup (b : Backend) (h : ChipHandle) (chip : sensors_chip_name)
    (hnums : (chip.features.filterMap input_number).Nodup) :
    ((handed_over b h chip).map (fun s => s.id)).Nodup := by
  cases hname : get_chip_name_string chip with
  | none =>
    have hnil : handed_over b h chip = [] := by
      cases hl : handed_over b h chip with
      | nil => rfl
      | cons s rest =>
        obtain ⟨nm, n, hnm, -⟩ := handed_over_id b h chip s (by simp [hl])
        rw [hname] at hnm
        cases hnm
    simp [hnil]
  | some nm =>
    have hids := handed_over_ids b h chip nm hname
    have heq : (handed_over b h chip).map (fun s => s.id) =
        ((chip.features.takeWhile (spec_feature_ok b h)).filterMap input_number).map
          (g_strdup_printf nm) := by
      have h1 : List.filterMap id ((handed_over b h chip).map (fun s => some s.id)) =
          (handed_over b h chip).map (fun s => s.id) := by
        rw [List.filterMap_map]
        exact congrFun (List.filterMap_eq_map (fun s : IsSensor => s.id)) _
      rw [← h1, hids, List.filterMap_map, List.map_filterMap]
      rfl
    rw [heq]
    refine List.Nodup.map ?_ (((List.takeWhile_sublist _).filterMap _).nodup hnums)
    intro n1 n2 hn
    exact (g_strdup_printf_injective nm nm n1 n2 hn).2

theorem chip_pairs_ids_nodup (b : Backend) (chips : List sensors_chip_name)
    (hnames : (chips.filterMap get_chip_name_string).Nodup)
    (hnums : ∀ chip ∈ chips, (chip.features.filterMap input_number).Nodup) :
    ∀ nr, ((chip_pairs b nr chips).map (fun p => p.2.id)).Nodup := by
  induction chips with
  | nil => intro nr; simp [chip_pairs]
  | cons c rest ih =>
    intro nr
    have hrest : (rest.filterMap get_chip_name_string).Nodup := by
      cases hc : get_chip_name_string c with
      | none => simpa [List.filterMap_cons_none hc] using hnames
      | some nm =>
        rw [List.filterMap_cons_some hc] at hnames
        exact (List.nodup_cons.mp hnames).2
    simp only [chip_pairs, List.map_append, List.map_map]
    refine List.nodup_append.mpr ⟨?_, ih hrest (fun chip hm => hnums chip (by simp [hm])) _, ?_⟩
    · exact handed_over_ids_nodup b nr c (hnums c (by simp))
    · intro id h1 h2
      obtain ⟨s, hs, rfl⟩ := List.mem_map.mp h1
      obtain ⟨p, hp, hpid⟩ := List.mem_map.mp h2
      obtain ⟨nm, n, hnm, hid⟩ := handed_over_id b nr c s hs
      obtain ⟨i, chip, hi, -, hmem⟩ := (mem_chip_pairs b rest (nr + 1) p).mp hp
      obtain ⟨nm1, n1, hnm1, hid1⟩ := handed_over_id b p.1 chip p.2 hmem
      have hsame : nm1 = nm := by
        have : g_strdup_printf nm1 n1 = g_strdup_printf nm n := by
          rw [← hid1, ← hid]; exact hpid
        exact (g_strdup_printf_injective _ _ _ _ this).1
      subst hsame
      rw [List.filterMap_cons_some hnm] at hnames
      refine (List.nodup_cons.mp hnames).1 ?_
      exact List.mem_filterMap.mpr ⟨chip, List.getElem?_mem hi, hnm1⟩

/-! ## The table after a run of activations -/

theorem register_lookup_some (ps : List (ChipHandle × IsSensor)) :
    ∀ (t : GHashTable) (k : CStr) (v : ChipHandle),
      lookup_entries (register t ps) k = some v →
        lookup_entries t k = some v ∨ ∃ p ∈ ps, p.2.id = k ∧ p.1 = v := by
  induction ps with
  | nil => intro t k v h; exact Or.inl h
  | cons p ps ih =>
    intro t k v h
    rcases ih _ k v h with h1 | ⟨q, hq, hqk, hqv⟩
    · rw [lookup_insert] at h1
      by_cases hk : p.2.id = k
      · rw [if_pos hk] at h1
        exact Or.inr ⟨p, by simp, hk, Option.some.inj h1⟩
      · rw [if_neg hk] at h1
        exact Or.inl h1
    · exact Or.inr ⟨q, by simp [hq], hqk, hqv⟩

theorem register_lookup_isSome (ps : List (ChipHandle × IsSensor)) :
    ∀ (t : GHashTable) (k : CStr),
      ((∃ v, lookup_entries t k = some v) ∨ ∃ p ∈ ps, p.2.id = k) →
        ∃ v, lookup_entries (register t ps) k = some v := by
  induction ps with
  | nil =>
    rintro t k (h | ⟨p, hp, -⟩)
    · exact h
    · cases hp
  | cons p ps ih =>
    intro t k h
    apply ih
    by_cases hk : p.2.id = k
    · exact Or.inl ⟨p.1, by rw [lookup_insert, if_pos hk]⟩
    · rcases h with ⟨v, hv⟩ | ⟨q, hq, hqk⟩
      · exact Or.inl ⟨v, by rw [lookup_insert, if_neg hk, hv]⟩
      · rcases List.mem_cons.mp hq with rfl | hq1
        · exact absurd hqk hk
        · exact Or.inr ⟨q, hq1, hqk⟩

theorem update_sensor_value_ok (b : Backend) (self : IsLibsensorsPlugin) (sensor : IsSensor)
    (found_chip : ChipHandle) (offset : CStr)
    (hreg : g_hash_table_lookup self.sensor_chip_names sensor.id = some found_chip)
    (hoff : g_strrstr sensor.id = some offset) :
    ∃ r, update_sensor_value b self sensor = .ok r := by
  have hidx := parse_index_of_slash sensor.id offset hoff
  by_cases hret : (b.sensors_get_value found_chip (toInt32 (g_ascii_strtoll offset).1)).ret < 0
  · exact ⟨_, by simp [update_sensor_value, hreg, hidx, hret]; rfl⟩
  · exact ⟨_, by simp [update_sensor_value, hreg, hidx, hret]; rfl⟩

/-! ## Properties of the plugin -/

/-- C1: for every chip-name string and every signed 32-bit subfeature number,
the identifier built by `process_sensors_chip_name` is read back by the index
recovery of `update_sensor_value` to exactly that number. -/
theorem parse_index_g_strdup_printf (s : CStr) (idx : Int)
    (hlo : -2147483648 ≤ idx) (hhi : idx ≤ 2147483647) :
    parse_index (g_strdup_printf s idx) = .ok idx := by
  unfold parse_index g_strdup_printf
  rw [g_strrstr_append s _ (printf_d_no_slash idx)]
  simp only
  rw [g_ascii_strtoll_printf_d idx (by unfold G_MAXINT64; omega) (by unfold G_MAXINT64; omega)]
  simp only [toInt32_of_int32 idx hlo hhi]

/-- An instance of C1: a chip name that contains '/' and digits, with the
least 32-bit number. -/
theorem parse_index_g_strdup_printf_witness :
    (-2147483648 : Int) ≤ -2147483648 ∧ (-2147483648 : Int) ≤ 2147483647 ∧
    g_strdup_printf "i2c/1-0/48".toList (-2147483648) = "i2c/1-0/48/-2147483648".toList ∧
    parse_index (g_strdup_printf "i2c/1-0/48".toList (-2147483648)) = .ok (-2147483648) :=
  ⟨by decide, by decide, by decide,
    parse_index_g_strdup_printf "i2c/1-0/48".toList (-2147483648) (by decide) (by decide)⟩

/-- C2, evaluated: on chip "chip-C", whose first feature has no input
subfeature and whose second feature is fully valid, the activation warns once
about the missing input and hands no sensor to the indicator: the valid
feature after the bad one is never processed. With the two features in the
other order the valid one does yield its sensor. -/
theorem missing_input_first_abandons_chip :
    is_libsensors_plugin_activate backendC (is_libsensors_plugin_init 0) =
      .ok { indicator := [], inited := true, sensor_chip_names := some []
            events := [.g_debug, .sensors_get_detected_chips,
              .g_warning (.input_subfeature "chip-C".toList),
              .sensors_get_detected_chips] } ∧
    handed_over backendC 0 { chipC with features := chipC.features.reverse } =
      [is_temperature_sensor_new_full "libsensors".toList "chip-C/2".toList "temp1".toList
        none none] := by
  decide

/-- C3, evaluated: on chip "chip-B", a voltage feature whose max reads 12
followed by a fan feature, the fan sensor is constructed with high bound 12,
the value read for the voltage feature. -/
theorem fan_high_bound_is_stale :
    handed_over backendB 0 chipB =
      [is_sensor_new "libsensors".toList "chip-B/0".toList "in0".toList none (some 12)
        "U".toList,
       is_sensor_new "libsensors".toList "chip-B/2".toList "fan1".toList none (some 12)
        "U".toList] := by
  decide

/-- C5: in one activation over a backend whose chips format to pairwise
distinct chip-name strings and whose features on one chip have pairwise
distinct input-subfeature numbers, the identifiers of the sensors handed to
the indicator are pairwise distinct; and an identifier determines its
chip-name string and its number, whatever characters the name contains. -/
theorem identifiers_nodup (b : Backend) (self : IsLibsensorsPlugin)
    (hinit : self.inited = true)
    (hnames : (b.chips.filterMap get_chip_name_string).Nodup)
    (hnums : ∀ chip ∈ b.chips, (chip.features.filterMap input_number).Nodup) :
    (∃ self1 ss, is_libsensors_plugin_activate b self = .ok self1 ∧
      self1.indicator = self.indicator ++ ss ∧ (ss.map (fun s => s.id)).Nodup) ∧
    ∀ name1 name2 n1 n2,
      g_strdup_printf name1 n1 = g_strdup_printf name2 n2 → name1 = name2 ∧ n1 = n2 := by
  refine ⟨?_, g_strdup_printf_injective⟩
  obtain ⟨self1, hr, hind, -, -⟩ := activate_spec b self hinit
  refine ⟨self1, _, hr, hind, ?_⟩
  rw [List.map_map]
  exact chip_pairs_ids_nodup b b.chips hnames hnums 0

/-- An instance of C5: the chips "chip-B" and "chip-A" give three sensors with
three distinct identifiers. -/
theorem identifiers_nodup_witness :
    (is_libsensors_plugin_init 0).inited = true ∧
    (backendE.chips.filterMap get_chip_name_string).Nodup ∧
    (∀ chip ∈ backendE.chips, (chip.features.filterMap input_number).Nodup) ∧
    (handed_over backendE 0 chipB ++ handed_over backendE 1 chipA).map (fun s => s.id) =
      ["chip-B/0".toList, "chip-B/2".toList, "chip-A/0".toList] ∧
    ∃ self1 ss, is_libsensors_plugin_activate backendE (is_libsensors_plugin_init 0) = .ok self1 ∧
      self1.indicator = (is_libsensors_plugin_init 0).indicator ++ ss ∧
      (ss.map (fun s => s.id)).Nodup :=
  ⟨by decide, by decide, by decide, by decide,
    (identifiers_nodup backendE (is_libsensors_plugin_init 0) (by decide) (by decide)
      (by decide)).1⟩

/-- C6: for a sensor whose identifier is in the table and contains a '/', a
live read that fails (negative return code) leaves the plugin, and so the
table, unchanged, leaves the value of the sensor unchanged and emits exactly
one error on it, whose message contains the identifier and the backend error
text for that code; a read that succeeds and stores a value sets the value of
the sensor to it and emits no error. -/
theorem update_sensor_value_read (b : Backend) (self : IsLibsensorsPlugin) (sensor : IsSensor)
    (found_chip : ChipHandle) (offset : CStr)
    (hreg : g_hash_table_lookup self.sensor_chip_names sensor.id = some found_chip)
    (hoff : g_strrstr sensor.id = some offset) :
    ((b.sensors_get_value found_chip (toInt32 (g_ascii_strtoll offset).1)).ret < 0 →
      ∃ e : GError,
        update_sensor_value b self sensor =
          .ok (self, { sensor with errors := sensor.errors ++ [e] }) ∧
        sensor.id <:+: e.message ∧
        b.sensors_strerror
          (b.sensors_get_value found_chip (toInt32 (g_ascii_strtoll offset).1)).ret
          <:+: e.message) ∧
    (¬ (b.sensors_get_value found_chip (toInt32 (g_ascii_strtoll offset).1)).ret < 0 →
      ∀ v, (b.sensors_get_value found_chip (toInt32 (g_ascii_strtoll offset).1)).stored = some v →
        update_sensor_value b self sensor = .ok (self, { sensor with value := some v })) := by
  have hidx := parse_index_of_slash sensor.id offset hoff
  constructor
  · intro hret
    refine ⟨{ domain := "libsensors-plugin-error-quark".toList, code := 0,
              message := error_message sensor.id (b.sensors_strerror
                (b.sensors_get_value found_chip (toInt32 (g_ascii_strtoll offset).1)).ret) },
      ?_, isInfix_error_message_id sensor.id _, isInfix_error_message_strerror _ _⟩
    simp [update_sensor_value, hreg, hidx, hret, is_sensor_emit_error]
  · intro hret v hv
    simp [update_sensor_value, hreg, hidx, hret, is_sensor_set_value, hv]

/-- The scenario of C6 on the plugin activated over "chip-A": a failing read
emits one error naming "chip-A/0" and "I/O error" and keeps the value; a
succeeding read sets the value. -/
theorem update_sensor_value_read_witness :
    g_hash_table_lookup pluginA.sensor_chip_names sensorA.id = some 0 ∧
    g_strrstr sensorA.id = some "0".toList ∧
    (∃ e : GError,
      update_sensor_value backendFailing pluginA sensorA =
        .ok (pluginA, { sensorA with errors := sensorA.errors ++ [e] }) ∧
      sensorA.id <:+: e.message ∧ "I/O error".toList <:+: e.message) ∧
    update_sensor_value backendA pluginA sensorA =
      .ok (pluginA, { sensorA with value := some 42 }) :=
  ⟨by decide, by decide,
    (update_sensor_value_read backendFailing pluginA sensorA 0 "0".toList (by decide)
      (by decide)).1 (by decide),
    (update_sensor_value_read backendA pluginA sensorA 0 "0".toList (by decide)
      (by decide)).2 (by decide) 42 (by decide)⟩

/-- C8: after any run of activations on a successfully initialised plugin,
the sensors held by the indicator are exactly the sensors handed over for the
chips of the backends; each of them has its identifier in the table with a
chip handle, its identifier contains a '/', and `update_sensor_value` on it
returns without a failed assertion; and when the backends share one table of
chip-name strings that are pairwise distinct, the handle found for a sensor
is the chip it was handed over for. -/
theorem registry_covers_handed_over (bs : List Backend) :
    ∃ self1, activations bs (is_libsensors_plugin_init 0) = .ok self1 ∧
      (∀ s, s ∈ self1.indicator ↔
        ∃ b ∈ bs, ∃ h chip, b.chips[h]? = some chip ∧ s ∈ handed_over b h chip) ∧
      (∀ s ∈ self1.indicator,
        (∃ found_chip, g_hash_table_lookup self1.sensor_chip_names s.id = some found_chip) ∧
        (∃ offset, g_strrstr s.id = some offset) ∧
        ∀ b, ∃ r, update_sensor_value b self1 s = .ok r) ∧
      (∀ names : List (Option CStr),
        (∀ b ∈ bs, b.chips.map get_chip_name_string = names) →
        (∀ (i j : Nat) (nm : CStr),
          names[i]? = some (some nm) → names[j]? = some (some nm) → i = j) →
        ∀ b ∈ bs, ∀ h chip, b.chips[h]? = some chip → ∀ s ∈ handed_over b h chip,
          g_hash_table_lookup self1.sensor_chip_names s.id = some h) := by
  obtain ⟨self1, hr, hind, -, hreg⟩ := activations_spec bs (is_libsensors_plugin_init 0) rfl
  have hind1 : self1.indicator = (all_pairs bs).map (fun p => p.2) := by
    simpa [is_libsensors_plugin_init] using hind
  have hreg1 : self1.sensor_chip_names = some (register [] (all_pairs bs)) := by
    simpa [is_libsensors_plugin_init] using hreg
  have hmem : ∀ s, s ∈ self1.indicator ↔
      ∃ b ∈ bs, ∃ h chip, b.chips[h]? = some chip ∧ s ∈ handed_over b h chip := by
    intro s
    rw [hind1, List.mem_map]
    constructor
    · rintro ⟨p, hp, rfl⟩
      obtain ⟨b, hb, chip, hc, hs⟩ := (mem_all_pairs bs p).mp hp
      exact ⟨b, hb, p.1, chip, hc, hs⟩
    · rintro ⟨b, hb, h, chip, hc, hs⟩
      exact ⟨(h, s), (mem_all_pairs bs (h, s)).mpr ⟨b, hb, chip, hc, hs⟩, rfl⟩
  have hfound : ∀ b ∈ bs, ∀ h chip, b.chips[h]? = some chip → ∀ s ∈ handed_over b h chip,
      ∃ v, g_hash_table_lookup self1.sensor_chip_names s.id = some v := by
    intro b hb h chip hc s hs
    rw [hreg1]
    exact register_lookup_isSome _ [] s.id
      (Or.inr ⟨(h, s), (mem_all_pairs bs (h, s)).mpr ⟨b, hb, chip, hc, hs⟩, rfl⟩)
  refine ⟨self1, hr, hmem, ?_, ?_⟩
  · intro s hs
    obtain ⟨b, hb, h, chip, hc, hs1⟩ := (hmem s).mp hs
    obtain ⟨v, hv⟩ := hfound b hb h chip hc s hs1
    obtain ⟨nm, n, -, hid⟩ := handed_over_id b h chip s hs1
    have hoff : g_strrstr s.id = some (printf_d n) := by
      rw [hid]; exact g_strrstr_append nm _ (printf_d_no_slash n)
    exact ⟨⟨v, hv⟩, ⟨_, hoff⟩, fun b1 => update_sensor_value_ok b1 self1 s v _ hv hoff⟩
  · intro names hnames hdistinct b hb h chip hc s hs
    obtain ⟨v, hv⟩ := hfound b hb h chip hc s hs
    rw [hv]
    rw [hreg1] at hv
    rcases register_lookup_some _ [] s.id v hv with h0 | ⟨p, hp, hpid, hpv⟩
    · cases h0
    · obtain ⟨b1, hb1, chip1, hc1, hs1⟩ := (mem_all_pairs bs p).mp hp
      obtain ⟨nm, n, hnm, hid⟩ := handed_over_id b h chip s hs
      obtain ⟨nm1, n1, hnm1, hid1⟩ := handed_over_id b1 p.1 chip1 p.2 hs1
      have hsame : nm1 = nm := by
        have : g_strdup_printf nm1 n1 = g_strdup_printf nm n := by
          rw [← hid1, ← hid]; exact hpid
        exact (g_strdup_printf_injective _ _ _ _ this).1
      subst hsame
      have e1 : names[h]? = some (some nm1) := by
        rw [← hnames b hb, List.getElem?_map, hc]; simp [hnm]
      have e2 : names[p.1]? = some (some nm1) := by
        rw [← hnames b1 hb1, List.getElem?_map, hc1]; simp [hnm1]
      rw [← hpv, hdistinct p.1 h nm1 e2 e1]

/-- An instance of C8: two activations over the chips "chip-B" and "chip-A". -/
theorem registry_covers_handed_over_witness :
    ∃ self1, activations [backendE, backendE] (is_libsensors_plugin_init 0) = .ok self1 ∧
      sensorA ∈ self1.indicator ∧
      g_hash_table_lookup self1.sensor_chip_names sensorA.id = some 1 := by
  obtain ⟨self1, hr, hmem, -, hhandle⟩ := registry_covers_handed_over [backendE, backendE]
  have hs : sensorA ∈ handed_over backendE 1 chipA := by decide
  refine ⟨self1, hr, (hmem sensorA).mpr ⟨backendE, by simp, 1, chipA, rfl, hs⟩, ?_⟩
  exact hhandle [some "chip-B".toList, some "chip-A".toList]
    (by intro b hb; simp at hb; subst hb; decide)
    (by
      intro i j nm hi hj
      match i, j with
      | 0, 0 => rfl
      | 1, 1 => rfl
      | 0, 1 => simp at hi hj; rw [← hi] at hj; exact absurd hj (by decide)
      | 1, 0 => simp at hi hj; rw [← hi] at hj; exact absurd hj (by decide)
      | 0, j + 2 => simp at hj
      | 1, j + 2 => simp at hj
      | i + 2, _ => simp at hi)
    backendE (by simp) 1 chipA rfl sensorA hs

/-- C9: when `sensors_init` fails, `is_libsensors_plugin_init` leaves `inited`
false and allocates no table; an activation then returns normally having
issued exactly one warning and nothing else: no chip is queried, no sensor is
handed to the indicator, nothing is inserted; and finalize, before or after
that activation, destroys no table and does not call `sensors_cleanup`. -/
theorem failed_init_is_inert (sensors_init : Int) (hfail : sensors_init ≠ 0) (b : Backend) :
    is_libsensors_plugin_init sensors_init =
      { indicator := [], inited := false, sensor_chip_names := none, events := [] } ∧
    is_libsensors_plugin_activate b (is_libsensors_plugin_init sensors_init) =
      .ok { indicator := [], inited := false, sensor_chip_names := none,
            events := [.g_warning .not_inited] } ∧
    is_libsensors_plugin_finalize (is_libsensors_plugin_init sensors_init) =
      is_libsensors_plugin_init sensors_init ∧
    is_libsensors_plugin_finalize
        { indicator := [], inited := false, sensor_chip_names := none,
          events := [.g_warning .not_inited] } =
      { indicator := [], inited := false, sensor_chip_names := none,
        events := [.g_warning .not_inited] } := by
  have hinit : is_libsensors_plugin_init sensors_init =
      { indicator := [], inited := false, sensor_chip_names := none, events := [] } := by
    simp [is_libsensors_plugin_init, hfail]
  rw [hinit]
  exact ⟨rfl, rfl, rfl, rfl⟩

/-- An instance of C9: `sensors_init` returning -4 over a backend with three chips. -/
theorem failed_init_is_inert_witness :
    (-4 : Int) ≠ 0 ∧
    is_libsensors_plugin_activate backendD (is_libsensors_plugin_init (-4)) =
      .ok { indicator := [], inited := false, sensor_chip_names := none,
            events := [.g_warning .not_inited] } :=
  ⟨by decide, (failed_init_is_inert (-4) (by decide) backendD).2.1⟩

/-- C10: on an initialised plugin an activation returns normally, and the
sensors it hands to the indicator are, in order and up to their bounds, the
reference enumeration: chip by chip in backend order, nothing for a chip whose
name fails to format, else one sensor for each feature of the longest run of
features at the front of the feature list that have a recognised kind, an
input subfeature, a label and a successful input-value read. -/
theorem activate_eq_spec_enumerate (b : Backend) (self : IsLibsensorsPlugin)
    (hinit : self.inited = true) :
    ∃ self1 ss, is_libsensors_plugin_activate b self = .ok self1 ∧
      self1.indicator = self.indicator ++ ss ∧
      ss.map (fun s => some (forget_bounds s)) = spec_enumerate b := by
  obtain ⟨self1, hr, hind, -, -⟩ := activate_spec b self hinit
  refine ⟨self1, _, hr, hind, ?_⟩
  rw [List.map_map]
  exact chip_pairs_spec b b.chips 0

/-- An instance of C10: over a chip whose name fails to format, a chip whose
first feature lacks its input, and "chip-A", the reference enumeration is the
one sensor of "chip-A". -/
theorem activate_eq_spec_enumerate_witness :
    (is_libsensors_plugin_init 0).inited = true ∧
    spec_enumerate backendD = [some (forget_bounds sensorA)] ∧
    ∃ self1 ss, is_libsensors_plugin_activate backendD (is_libsensors_plugin_init 0) = .ok self1 ∧
      self1.indicator = (is_libsensors_plugin_init 0).indicator ++ ss ∧
      ss.map (fun s => some (forget_bounds s)) = spec_enumerate backendD :=
  ⟨by decide, by decide, activate_eq_spec_enumerate backendD (is_libsensors_plugin_init 0) (by decide)⟩

end IsLibsensors
